import Mathlib

/-! Verification development for the DataTalk-AI Flask backend (src/app.py).
The Python functions are shallowly embedded as Lean functions. External
collaborators (the Gemini text-generation service and the database drivers)
are modeled as oracle parameters, following the component boundaries the
source itself draws: each driver call is a single opaque operation that
either yields data or raises, and the Gemini call is a function from a
prompt to either a response text or an error message. -/

namespace DataTalk

/-- Backtick character, written by code point to keep sources plain. -/
def bq : Char := Char.ofNat 96

/-- Opening-brace character, written by code point; used by the Mongo
filter dispatch in the source. -/
def lbrace : Char := Char.ofNat 123

/-- Python str.lstrip of whitespace, on a list of characters. -/
def pyLStrip (l : List Char) : List Char := l.dropWhile Char.isWhitespace

/-- Python whitespace strip on the right-hand end only. -/
def pyRStrip (l : List Char) : List Char := (pyLStrip l.reverse).reverse

/-- Python str.strip with no arguments: whitespace removed from both ends. -/
def pyStrip (l : List Char) : List Char := pyRStrip (pyLStrip l)

/-- The three-backtick code-fence marker. -/
def fence : List Char := [bq, bq, bq]

/-- The language-tagged code-fence marker, three backticks followed by sql. -/
def fenceSql : List Char := [bq, bq, bq, 's', 'q', 'l']

/-- Python s.replace of the three-backtick marker by the empty string:
scan left to right, removing each non-overlapping occurrence
(app.py lines 41 and 43). -/
def replaceTicks : List Char → List Char
  | x :: y :: z :: rest =>
    if x = bq ∧ y = bq ∧ z = bq then replaceTicks rest
    else x :: replaceTicks (y :: z :: rest)
  | l => l

/-- Python s.replace of the sql-tagged fence marker by the empty string:
scan left to right, removing each non-overlapping occurrence
(app.py line 41). -/
def replaceTicksSql : List Char → List Char
  | a :: b :: c :: d :: e :: f :: rest =>
    if a = bq ∧ b = bq ∧ c = bq ∧ d = 's' ∧ e = 'q' ∧ f = 'l' then
      replaceTicksSql rest
    else a :: replaceTicksSql (b :: c :: d :: e :: f :: rest)
  | l => l

/-- The formatting-marker stripping applied to the model's response text in
generate_sql_with_gemini (app.py lines 37-45): strip whitespace, then if the
text starts with a sql-tagged fence remove all sql-tagged fences and then all
bare fences and strip again; else if it starts with a bare fence remove all
bare fences and strip again; else return the stripped text. -/
def cleanSqlList (raw : List Char) : List Char :=
  if fenceSql.isPrefixOf (pyStrip raw) then
    pyStrip (replaceTicks (replaceTicksSql (pyStrip raw)))
  else if fence.isPrefixOf (pyStrip raw) then
    pyStrip (replaceTicks (pyStrip raw))
  else pyStrip raw

/-- String-level wrapper of the formatting-marker stripping. -/
def cleanSql (s : String) : String := String.mk (cleanSqlList s.data)

/-- Embedding of generate_sql_with_gemini (app.py lines 29-47). The model
call (GenerativeModel plus generate_content plus response.text) is the
oracle gemini, giving either the response text or the service error text.
On success the response text is cleaned of formatting markers; on failure
the exception is re-raised with the Gemini API error prefix. The
max_retries parameter comes from the source signature and is never read
by the body, exactly as in the source. -/
def generate_sql_with_gemini (gemini : String → Except String String)
    (prompt : String) (max_retries : Nat) : Except String String :=
  match gemini prompt with
  | Except.ok text => Except.ok (cleanSql text)
  | Except.error e => Except.error ("Gemini API error: " ++ e)

/-- The correction prompt f-string built at app.py lines 81-90,
rendered literally. -/
def correction_prompt (error_msg original_question schema_info sql : String) :
    String :=
  "\nThe following SQL query failed with error: " ++ error_msg ++
  "\n\nOriginal question: " ++ original_question ++
  "\nSchema: " ++ schema_info ++
  "\nFailed SQL: " ++ sql ++
  "\n\nPlease provide a corrected SQL query that fixes this error. " ++
  "\nReturn only the SQL query without any explanation or formatting.\n"

/-- The result dictionary returned by auto_correct_and_execute; each Python
return site sets a subset of the keys, modeled by Option fields that default
to none, except attempts which every return site sets. -/
structure AttemptRecord (ρ : Type) where
  success : Bool
  results : Option ρ := none
  final_sql : Option String := none
  error : Option String := none
  original_error : Option String := none
  attempts : Nat
deriving DecidableEq

/-- One pass of the for-loop of auto_correct_and_execute (app.py lines
54-108). The backend dispatch at lines 57-67 is the oracle execF, indexed
by the attempt number because each attempt opens a fresh driver connection
against external state; the unsupported-db_type raise at line 67 is one more
way execF can yield an error. remaining counts the loop iterations left and
equals max_retries minus attempt at every reachable call, so the fuel never
runs out before the loop would end; the Python loop falls off the end (and
the function returns None) only when max_retries is zero. -/
def autoCorrectGo {ρ : Type} (execF : Nat → String → Except String ρ)
    (gemini : String → Except String String)
    (schema_info original_question : String) (max_retries : Nat) :
    Nat → Nat → String → Option (AttemptRecord ρ)
  | 0, _, _ => none
  | remaining + 1, attempt, sql =>
    match execF attempt sql with
    | Except.ok results =>
        some { success := true, results := some results, final_sql := some sql,
               attempts := attempt + 1 }
    | Except.error error_msg =>
      if attempt < max_retries - 1 then
        match generate_sql_with_gemini gemini
            (correction_prompt error_msg original_question schema_info sql) 3 with
        | Except.ok corrected_sql =>
            autoCorrectGo execF gemini schema_info original_question max_retries
              remaining (attempt + 1) corrected_sql
        | Except.error correction_error =>
            some { success := false,
                   error := some ("Auto-correction failed: " ++ correction_error),
                   original_error := some error_msg,
                   attempts := attempt + 1 }
      else
        some { success := false, error := some error_msg, final_sql := some sql,
               attempts := attempt + 1 }

/-- Embedding of auto_correct_and_execute (app.py lines 49-108): run the
correction loop from attempt zero with the full iteration budget. The
source calls generate_sql_with_gemini with its default max_retries of 3,
matching the literal 3 passed inside autoCorrectGo. -/
def auto_correct_and_execute {ρ : Type} (execF : Nat → String → Except String ρ)
    (gemini : String → Except String String)
    (sql schema_info original_question : String) (max_retries : Nat) :
    Option (AttemptRecord ρ) :=
  autoCorrectGo execF gemini schema_info original_question max_retries
    max_retries 0 sql

/-- The query text in force at each attempt of a correction cycle in which
every execution fails (errors given by errF) and every correction
generation succeeds (raw model text given by genOut): attempt k+1 runs the
cleaned model output for the correction prompt built from attempt k. -/
def sqlChain (errF : Nat → String → String) (genOut : String → String)
    (schema_info original_question sql0 : String) : Nat → String
  | 0 => sql0
  | k + 1 =>
    cleanSql (genOut (correction_prompt
      (errF k (sqlChain errF genOut schema_info original_question sql0 k))
      original_question schema_info
      (sqlChain errF genOut schema_info original_question sql0 k)))

/-- Observable driver-level actions of one backend-adapter call, used to
state which exit paths close the connection. -/
inductive DbEvent where
  | connect
  | execute
  | commit
  | close
deriving DecidableEq, BEq

/-- Result shape of a relational execution: all rows for a read, the
affected-row count for a write. -/
inductive SqlExecResult (ρ : Type) where
  | rows (rs : List ρ)
  | affected (n : Int)
deriving DecidableEq

/-- The read/write classification shared verbatim by the three relational
executors (app.py lines 119, 133, 147): strip the query text, uppercase it,
and test for the SELECT keyword at the front. -/
def isRead (sql : String) : Bool :=
  ("SELECT".data).isPrefixOf ((pyStrip sql.data).map Char.toUpper)

/-- The classification as the specification words it: after trimming
leading whitespace the text starts with the read keyword,
case-insensitively. -/
def isReadSpec (sql : String) : Bool :=
  ("SELECT".data).isPrefixOf ((pyLStrip sql.data).map Char.toUpper)

/-- Embedding of execute_sql_sqlite (app.py lines 113-126). The driver
connect is modeled as succeeding (a connect failure opens nothing, so the
claims about closing do not arise); cursorExec is the outcome of
cur.execute, fetched the rows cur.fetchall would yield as name-to-value
records (sqlite3.Row dicts), rowcount the cursor rowcount. The second
component records the driver actions actually performed, in order; note
the source only reaches conn.close() when cur.execute did not raise. -/
def execute_sql_sqlite {ρ : Type} (cursorExec : Except String Unit)
    (fetched : List ρ) (rowcount : Int) (sql : String) :
    Except String (SqlExecResult ρ) × List DbEvent :=
  match cursorExec with
  | Except.error e => (Except.error e, [DbEvent.connect, DbEvent.execute])
  | Except.ok _ =>
    if isRead sql then
      (Except.ok (SqlExecResult.rows fetched),
       [DbEvent.connect, DbEvent.execute, DbEvent.close])
    else
      (Except.ok (SqlExecResult.affected rowcount),
       [DbEvent.connect, DbEvent.execute, DbEvent.commit, DbEvent.close])

/-- Embedding of execute_sql_mysql (app.py lines 128-140); identical shape
to the sqlite variant, with the dictionary cursor yielding the rows as
records directly. -/
def execute_sql_mysql {ρ : Type} (cursorExec : Except String Unit)
    (fetched : List ρ) (rowcount : Int) (sql : String) :
    Except String (SqlExecResult ρ) × List DbEvent :=
  match cursorExec with
  | Except.error e => (Except.error e, [DbEvent.connect, DbEvent.execute])
  | Except.ok _ =>
    if isRead sql then
      (Except.ok (SqlExecResult.rows fetched),
       [DbEvent.connect, DbEvent.execute, DbEvent.close])
    else
      (Except.ok (SqlExecResult.affected rowcount),
       [DbEvent.connect, DbEvent.execute, DbEvent.commit, DbEvent.close])

/-- Embedding of execute_sql_postgres (app.py lines 142-156): the cursor
description gives the column names and the fetched tuples are zipped with
them into records, exactly as the source's dict(zip(columns, row)). -/
def execute_sql_postgres {ν : Type} (cursorExec : Except String Unit)
    (description : List String) (fetchedTuples : List (List ν))
    (rowcount : Int) (sql : String) :
    Except String (SqlExecResult (List (String × ν))) × List DbEvent :=
  match cursorExec with
  | Except.error e => (Except.error e, [DbEvent.connect, DbEvent.execute])
  | Except.ok _ =>
    if isRead sql then
      (Except.ok (SqlExecResult.rows
        (fetchedTuples.map (fun row => description.zip row))),
       [DbEvent.connect, DbEvent.execute, DbEvent.close])
    else
      (Except.ok (SqlExecResult.affected rowcount),
       [DbEvent.connect, DbEvent.execute, DbEvent.commit, DbEvent.close])

/-- A document held in the document store: an optional unique-identifier
field plus the remaining payload. -/
structure MongoDoc (ι ν : Type) where
  idField : Option ι
  fields : ν
deriving DecidableEq

/-- The brace test of execute_sql_mongo (app.py line 173):
query_text.strip().startswith of the opening brace. -/
def startsBrace (q : String) : Bool := [lbrace].isPrefixOf (pyStrip q.data)

/-- The brace test as the specification words it: the query text after
trimming leading whitespace begins with an opening brace. -/
def startsBraceSpec (q : String) : Bool := [lbrace].isPrefixOf (pyLStrip q.data)

/-- Embedding of execute_sql_mongo (app.py lines 158-191). The MongoClient
connect is modeled as succeeding; parseJson is json.loads on the raw query
text (which may fail), emptyFilter the unfiltered query document, find the
collection lookup, toStr the str coercion applied to a stored identifier.
Errors inside the try block are wrapped with the MongoDB query error
prefix, and the finally block closes the client on both paths. -/
def execute_sql_mongo {φ ι ν : Type} (parseJson : String → Except String φ)
    (emptyFilter : φ) (find : φ → List (MongoDoc ι ν)) (toStr : ι → String)
    (query_text : String) :
    Except String (List (MongoDoc String ν)) × List DbEvent :=
  let mongo_query : Except String φ :=
    if startsBrace query_text then parseJson query_text
    else Except.ok emptyFilter
  match mongo_query with
  | Except.error e =>
      (Except.error ("MongoDB query error: " ++ e),
       [DbEvent.connect, DbEvent.close])
  | Except.ok f =>
      (Except.ok ((find f).map
        (fun d => { idField := d.idField.map toStr, fields := d.fields })),
       [DbEvent.connect, DbEvent.close])

/-- Responses of the execute_query endpoint (app.py lines 284-311), keyed
by the jsonify dictionaries the source builds, each carrying its HTTP
status. internalError stands for the uncaught TypeError the source would
raise if auto_correct_and_execute returned None; it is unreachable because
the endpoint always passes the default bound of three attempts. -/
inductive ExecuteQueryResponse (ρ : Type) where
  | badRequest (error : String) (status : Nat)
  | okBody (results : Option ρ) (final_sql : Option String) (attempts : Nat)
      (status : Nat)
  | failBody (error : Option String) (attempts : Nat) (status : Nat)
  | internalError
deriving DecidableEq

/-- Python truthiness of an optional string field: present and non-empty. -/
def truthy (o : Option String) : Bool :=
  match o with
  | none => false
  | some s => !s.isEmpty

/-- Embedding of the execute_query endpoint (app.py lines 284-311). The
parsed JSON body fields arrive as optional values; dbParams is abstracted
to its presence (π a non-empty parameter mapping) since its content only
feeds the execution oracle. The endpoint rejects falsy dbType, dbParams or
sql with a 400, runs the correction controller with the default bound of
three attempts, and maps its record to a 200 or a 500 body; the 500 body
carries only success, error and attempts. -/
def execute_query {ρ π : Type} (execF : Nat → String → Except String ρ)
    (gemini : String → Except String String) (dbType : Option String)
    (dbParams : Option π) (sqlField schemaField questionField : Option String) :
    ExecuteQueryResponse ρ :=
  if !(truthy dbType && dbParams.isSome && truthy sqlField) then
    ExecuteQueryResponse.badRequest ("dbType, dbParams, and sql required") 400
  else
    match auto_correct_and_execute execF gemini (sqlField.getD "")
        (schemaField.getD "") (questionField.getD "") 3 with
    | none => ExecuteQueryResponse.internalError
    | some result =>
      if result.success then
        ExecuteQueryResponse.okBody result.results result.final_sql
          result.attempts 200
      else
        ExecuteQueryResponse.failBody result.error result.attempts 500

/-- The head of a left-stripped list is never whitespace. -/
theorem pyLStrip_head_not_ws {l : List Char} {c : Char} {cs : List Char}
    (h : pyLStrip l = c :: cs) : Char.isWhitespace c = false := by
  induction l with
  | nil => simp [ pyLStrip] at h
  | cons a as ih =>
    rcases ha : Char.isWhitespace a with _ | _
    · have hd : pyLStrip (a :: as) = a :: as := by
        simp [ pyLStrip, List.dropWhile_cons, ha]
      rw [ hd] at h
      cases h
      exact ha
    · have hd : pyLStrip (a :: as) = pyLStrip as := by
        simp [ pyLStrip, List.dropWhile_cons, ha]
      exact ih (by rw [ ← hd]; exact h)

/-- Left stripping is idempotent. -/
theorem pyLStrip_idem (l : List Char) : pyLStrip (pyLStrip l) = pyLStrip l := by
  rcases h : pyLStrip l with _ | ⟨c, cs⟩
  · simp [ pyLStrip]
  · have hc := pyLStrip_head_not_ws h
    simp [ pyLStrip, List.dropWhile_cons, hc]

/-- Right stripping removes only a whitespace suffix. -/
theorem pyRStrip_decomp (m : List Char) :
    ∃ w, pyRStrip m ++ w = m ∧ ∀ c ∈ w, Char.isWhitespace c = true := by
  refine ⟨(m.reverse.takeWhile Char.isWhitespace).reverse, ?_, ?_⟩
  · unfold pyRStrip pyLStrip
    rw [ ← List.reverse_append, List.takeWhile_append_dropWhile, List.reverse_reverse]
  · intro c hc
    have hc' : c ∈ m.reverse.takeWhile Char.isWhitespace := by
      have := List.mem_reverse.mp hc
      simpa using this
    exact List.mem_takeWhile_imp hc'

/-- Right stripping is idempotent. -/
theorem pyRStrip_idem (m : List Char) : pyRStrip (pyRStrip m) = pyRStrip m := by
  simp [ pyRStrip, List.reverse_reverse, pyLStrip_idem]

/-- A right strip of an already left-stripped list needs no further left strip. -/
theorem pyLStrip_pyRStrip (l : List Char) :
    pyLStrip (pyRStrip (pyLStrip l)) = pyRStrip (pyLStrip l) := by
  rcases h : pyRStrip (pyLStrip l) with _ | ⟨c, cs⟩
  · simp [ pyLStrip]
  · obtain ⟨w, hw, -⟩ := pyRStrip_decomp (pyLStrip l)
    rw [ h] at hw
    have hc : Char.isWhitespace c = false := pyLStrip_head_not_ws hw.symm
    simp [ pyLStrip, List.dropWhile_cons, hc]

/-- Python strip is idempotent. -/
theorem pyStrip_idem (l : List Char) : pyStrip (pyStrip l) = pyStrip l := by
  unfold pyStrip
  rw [ pyLStrip_pyRStrip, pyRStrip_idem]

/-- The stripped list sits inside the original as a contiguous segment. -/
theorem pyStrip_infixOf (l : List Char) : pyStrip l <:+: l := by
  obtain ⟨w, hw, -⟩ := pyRStrip_decomp (pyLStrip l)
  have h1 : pyStrip l <+: pyLStrip l := ⟨w, hw⟩
  have h2 : pyLStrip l <:+ l := List.dropWhile_suffix Char.isWhitespace
  obtain ⟨t, ht⟩ := h1
  obtain ⟨s, hs⟩ := h2
  refine ⟨s, t, ?_⟩
  calc s ++ pyStrip l ++ t = s ++ (pyStrip l ++ t) := by rw [ List.append_assoc]
    _ = s ++ pyLStrip l := by rw [ ht]
    _ = l := hs

/-- A pattern free of whitespace is a prefix of a list followed by
whitespace padding exactly when it is a prefix of the list itself. -/
theorem prefix_append_ws {P A B : List Char}
    (hP : ∀ c ∈ P, Char.isWhitespace c = false)
    (hB : ∀ c ∈ B, Char.isWhitespace c = true) : P <+: A ++ B ↔ P <+: A := by
  constructor
  · intro h
    have hA : A <+: A ++ B := ⟨B, rfl⟩
    rcases List.prefix_or_prefix_of_prefix h hA with h2 | h2
    · exact h2
    · obtain ⟨r, hr⟩ := h2
      cases r with
      | nil => exact ⟨[], by simpa using hr.symm⟩
      | cons c r' =>
        exfalso
        have hcP : c ∈ P := by rw [ ← hr]; simp
        obtain ⟨t, ht⟩ := h
        have hAB : A ++ ((c :: r') ++ t) = A ++ B := by
          rw [ ← List.append_assoc, hr, ht]
        have hrB : (c :: r') ++ t = B := List.append_cancel_left hAB
        have hcB : c ∈ B := by rw [ ← hrB]; simp
        have := hB c hcB
        rw [ hP c hcP] at this
        exact Bool.false_ne_true this
  · intro h
    obtain ⟨t, ht⟩ := h
    exact ⟨t ++ B, by rw [ ← List.append_assoc, ht]⟩

/-- Uppercasing leaves a whitespace character unchanged. -/
theorem toUpper_of_ws {c : Char} (h : Char.isWhitespace c = true) :
    c.toUpper = c := by
  have h' : ((c = ' ' ∨ c = '\t') ∨ c = '\r') ∨ c = '\n' := by
    simpa [ Char.isWhitespace] using h
  rcases h' with ((rfl | rfl) | rfl) | rfl <;> decide

/-- An occurrence inside a cons is a prefix of the cons or an occurrence
inside the tail. -/
theorem sandwich_cons_cases {t l : List Char} {a : Char} (h : t <:+: a :: l) :
    t <+: a :: l ∨ t <:+: l := by
  obtain ⟨s, u, hsu⟩ := h
  cases s with
  | nil => exact Or.inl ⟨u, by simpa using hsu⟩
  | cons b s' =>
    right
    refine ⟨s', u, ?_⟩
    simp only [ List.cons_append] at hsu
    exact (List.cons.inj hsu).2

/-- Containment of contiguous segments is transitive. -/
theorem sandwich_trans {a b c : List Char} (h1 : a <:+: b) (h2 : b <:+: c) :
    a <:+: c := by
  obtain ⟨s, t, rfl⟩ := h1
  obtain ⟨u, v, rfl⟩ := h2
  exact ⟨u ++ s, t ++ v, by simp [ List.append_assoc]⟩

/-- If a list with fewer than three entries survives the shape test, the
tick replacement leaves it unchanged. -/
theorem replaceTicks_short {l : List Char}
    (h : ∀ (x y z : Char) (rest : List Char), l = x :: y :: z :: rest → False) :
    replaceTicks l = l := by
  rcases l with _ | ⟨a, _ | ⟨b, _ | ⟨c, r⟩⟩⟩
  · rfl
  · rfl
  · rfl
  · exact absurd rfl (h a b c r)

/-- A backtick at the head of the tick-replaced list comes from a backtick
at the head of the input. -/
theorem replaceTicks_head_bq : ∀ l : List Char,
    (replaceTicks l).head? = some bq → l.head? = some bq := by
  intro l
  induction l using replaceTicks.induct with
  | case1 x y z rest h ih =>
    intro _
    simp [ h.1]
  | case2 x y z rest h ih =>
    intro hh
    rw [ show replaceTicks (x :: y :: z :: rest)
        = x :: replaceTicks (y :: z :: rest) by
      rw [ replaceTicks]; exact if_neg h] at hh
    simpa using hh
  | case3 l h =>
    rw [ replaceTicks_short h]
    exact fun hh => hh

/-- Two backticks at the front of the tick-replaced list come from two
backticks at the front of the input. -/
theorem replaceTicks_take2 : ∀ l : List Char,
    [bq, bq] <+: replaceTicks l → [bq, bq] <+: l := by
  intro l
  induction l using replaceTicks.induct with
  | case1 x y z rest h ih =>
    intro _
    obtain ⟨h1, h2, h3⟩ := h
    subst h1; subst h2
    exact ⟨z :: rest, rfl⟩
  | case2 x y z rest h ih =>
    intro hh
    rw [ show replaceTicks (x :: y :: z :: rest)
        = x :: replaceTicks (y :: z :: rest) by
      rw [ replaceTicks]; exact if_neg h] at hh
    rw [ List.cons_prefix_cons] at hh
    obtain ⟨hx, hr⟩ := hh
    obtain ⟨t, ht⟩ := hr
    have hhead : (replaceTicks (y :: z :: rest)).head? = some bq := by
      rw [ ← ht]; rfl
    have hy := replaceTicks_head_bq (y :: z :: rest) hhead
    simp only [ List.head?_cons, Option.some.injEq] at hy
    subst hx; subst hy
    exact ⟨z :: rest, rfl⟩
  | case3 l h =>
    rw [ replaceTicks_short h]
    exact fun hh => hh

/-- After the tick replacement no three consecutive backticks remain
anywhere in the list. -/
theorem replaceTicks_no_fence : ∀ l : List Char, ¬ fence <:+: replaceTicks l := by
  intro l
  induction l using replaceTicks.induct with
  | case1 x y z rest h ih =>
    rw [ show replaceTicks (x :: y :: z :: rest) = replaceTicks rest by
      rw [ replaceTicks]; exact if_pos h]
    exact ih
  | case2 x y z rest h ih =>
    rw [ show replaceTicks (x :: y :: z :: rest)
        = x :: replaceTicks (y :: z :: rest) by
      rw [ replaceTicks]; exact if_neg h]
    intro hh
    rcases sandwich_cons_cases hh with hp | hi
    · rw [ show fence = bq :: bq :: bq :: ([] : List Char) from rfl,
        List.cons_prefix_cons] at hp
      obtain ⟨hx, hp2⟩ := hp
      have h2 : [bq, bq] <+: replaceTicks (y :: z :: rest) := by
        obtain ⟨t, ht⟩ := hp2
        exact ⟨t, by simpa using ht⟩
      have h3 := replaceTicks_take2 (y :: z :: rest) h2
      rw [ List.cons_prefix_cons] at h3
      obtain ⟨hy, h4⟩ := h3
      rw [ List.cons_prefix_cons] at h4
      obtain ⟨hz, -⟩ := h4
      exact h ⟨hx.symm, hy.symm, hz.symm⟩
    · exact ih hi
  | case3 l h =>
    rw [ replaceTicks_short h]
    intro hh
    obtain ⟨s, t, hst⟩ := hh
    have hlen := congrArg List.length hst
    simp only [ List.length_append, fence, List.length_cons,
      List.length_nil] at hlen
    rcases l with _ | ⟨a, _ | ⟨b, _ | ⟨c, r⟩⟩⟩
    · simp at hlen
    · simp at hlen
      omega
    · simp at hlen
      omega
    · exact h a b c r rfl

/-- The tick-free fences of the two code-fence markers: a bare fence is a
prefix of the sql-tagged fence. -/
theorem fence_prefix_fenceSql : fence <+: fenceSql :=
  ⟨['s', 'q', 'l'], rfl⟩

/-- The cleaned text never starts with either code-fence marker, and is
already stripped; hence cleaning is idempotent. -/
theorem cleanSqlList_idem (raw : List Char) :
    cleanSqlList (cleanSqlList raw) = cleanSqlList raw := by
  have key : ∀ u : List Char,
      cleanSqlList (pyStrip (replaceTicks u)) = pyStrip (replaceTicks u) := by
    intro u
    have hnf : ¬ fence <:+: pyStrip (replaceTicks u) := fun hh =>
      replaceTicks_no_fence u (sandwich_trans hh (pyStrip_infixOf (replaceTicks u)))
    have hf : fence.isPrefixOf (pyStrip (replaceTicks u)) = false := by
      rcases hx : fence.isPrefixOf (pyStrip (replaceTicks u)) with _ | _
      · rfl
      · exfalso
        have hpre : fence <+: pyStrip (replaceTicks u) :=
          List.isPrefixOf_iff_prefix.mp hx
        obtain ⟨t, ht⟩ := hpre
        exact hnf ⟨[], t, by simpa using ht⟩
    have hfsql : fenceSql.isPrefixOf (pyStrip (replaceTicks u)) = false := by
      rcases hx : fenceSql.isPrefixOf (pyStrip (replaceTicks u)) with _ | _
      · rfl
      · exfalso
        have hpre : fenceSql <+: pyStrip (replaceTicks u) :=
          List.isPrefixOf_iff_prefix.mp hx
        obtain ⟨t, ht⟩ := hpre
        obtain ⟨m, hm⟩ := fence_prefix_fenceSql
        have : fence <+: pyStrip (replaceTicks u) :=
          ⟨m ++ t, by rw [ ← List.append_assoc, hm, ht]⟩
        obtain ⟨t2, ht2⟩ := this
        exact hnf ⟨[], t2, by simpa using ht2⟩
    unfold cleanSqlList
    rw [ pyStrip_idem, hf, hfsql]
    simp
  by_cases h1 : fenceSql.isPrefixOf (pyStrip raw) = true
  · have e : cleanSqlList raw = pyStrip (replaceTicks (replaceTicksSql (pyStrip raw))) := by
      unfold cleanSqlList
      rw [ h1]
      simp
    rw [ e]
    exact key (replaceTicksSql (pyStrip raw))
  · have h1' : fenceSql.isPrefixOf (pyStrip raw) = false :=
      Bool.eq_false_iff.mpr h1
    by_cases h2 : fence.isPrefixOf (pyStrip raw) = true
    · have e : cleanSqlList raw = pyStrip (replaceTicks (pyStrip raw)) := by
        unfold cleanSqlList
        rw [ h1', h2]
        simp
      rw [ e]
      exact key (pyStrip raw)
    · have h2' : fence.isPrefixOf (pyStrip raw) = false :=
        Bool.eq_false_iff.mpr h2
      have e : cleanSqlList raw = pyStrip raw := by
        unfold cleanSqlList
        rw [ h1', h2']
        simp
      rw [ e]
      unfold cleanSqlList
      rw [ pyStrip_idem, h1', h2']
      simp

/-- Mapping uppercase over a whitespace-only list leaves it whitespace-only. -/
theorem map_toUpper_ws {w : List Char}
    (hws : ∀ c ∈ w, Char.isWhitespace c = true) :
    ∀ c ∈ w.map Char.toUpper, Char.isWhitespace c = true := by
  intro c hc
  obtain ⟨c', hc', rfl⟩ := List.mem_map.mp hc
  rw [ toUpper_of_ws (hws c' hc')]
  exact hws c' hc'

/-- The SELECT keyword holds no whitespace. -/
theorem selectKW_no_ws : ∀ c ∈ ("SELECT".data), Char.isWhitespace c = false := by
  decide

/-- The source's read classification (strip both ends, uppercase, test the
front) agrees with the specification's wording (trim leading whitespace,
case-insensitive front test), because trailing whitespace cannot touch a
six-letter whitespace-free front. -/
theorem isRead_eq_spec (sql : String) : isRead sql = isReadSpec sql := by
  obtain ⟨w, hw, hws⟩ := pyRStrip_decomp (pyLStrip sql.data)
  have hw' : (pyStrip sql.data).map Char.toUpper ++ w.map Char.toUpper
      = (pyLStrip sql.data).map Char.toUpper := by
    rw [ ← List.map_append]
    exact congrArg (List.map Char.toUpper) hw
  have hiff : (("SELECT".data) <+: (pyStrip sql.data).map Char.toUpper)
      ↔ (("SELECT".data) <+: (pyLStrip sql.data).map Char.toUpper) := by
    rw [ ← hw']
    exact (prefix_append_ws selectKW_no_ws (map_toUpper_ws hws)).symm
  have hbool : (("SELECT".data).isPrefixOf ((pyStrip sql.data).map Char.toUpper)
        = true)
      ↔ (("SELECT".data).isPrefixOf ((pyLStrip sql.data).map Char.toUpper)
        = true) := by
    rw [ List.isPrefixOf_iff_prefix, List.isPrefixOf_iff_prefix]
    exact hiff
  unfold isRead isReadSpec
  rcases h1 : ("SELECT".data).isPrefixOf ((pyStrip sql.data).map Char.toUpper)
      with _ | _ <;>
    rcases h2 : ("SELECT".data).isPrefixOf ((pyLStrip sql.data).map Char.toUpper)
      with _ | _
  · rfl
  · rw [ h1, h2] at hbool
    simpa using hbool.mpr rfl
  · rw [ h1, h2] at hbool
    simpa using hbool.mp rfl
  · rfl

/-- The source's Mongo brace test (strip both ends, test the first
character) agrees with the specification's wording (trim leading
whitespace, test the first character). -/
theorem startsBrace_eq_spec (q : String) : startsBrace q = startsBraceSpec q := by
  obtain ⟨w, hw, hws⟩ := pyRStrip_decomp (pyLStrip q.data)
  have hP : ∀ c ∈ [lbrace], Char.isWhitespace c = false := by decide
  have hiff : ([lbrace] <+: pyStrip q.data) ↔ ([lbrace] <+: pyLStrip q.data) := by
    conv_rhs => rw [ ← hw]
    exact (prefix_append_ws hP hws).symm
  have hbool : ([lbrace].isPrefixOf (pyStrip q.data) = true)
      ↔ ([lbrace].isPrefixOf (pyLStrip q.data) = true) := by
    rw [ List.isPrefixOf_iff_prefix, List.isPrefixOf_iff_prefix]
    exact hiff
  unfold startsBrace startsBraceSpec
  rcases h1 : [lbrace].isPrefixOf (pyStrip q.data) with _ | _ <;>
    rcases h2 : [lbrace].isPrefixOf (pyLStrip q.data) with _ | _
  · rfl
  · rw [ h1, h2] at hbool
    simpa using hbool.mpr rfl
  · rw [ h1, h2] at hbool
    simpa using hbool.mp rfl
  · rfl

/-- C7: for every relational-backend execution, the query is classified as
a read exactly when its text, after trimming leading whitespace, starts
with SELECT case-insensitively; a read returns all rows as records mapping
column names to values, while any other query is committed and returns a
single affected-row count. Stated for the sqlite, mysql and postgres
executors on a non-raising cursor execution. -/
theorem c7_read_write_classification {ρ ν : Type} (fetched : List ρ)
    (description : List String) (fetchedTuples : List (List ν))
    (rowcount : Int) (sql : String) :
    ((execute_sql_sqlite (Except.ok ()) fetched rowcount sql).1 =
        Except.ok (if isReadSpec sql then SqlExecResult.rows fetched
          else SqlExecResult.affected rowcount) ∧
      (execute_sql_sqlite (Except.ok ()) fetched rowcount sql).2.contains
        DbEvent.commit = !isReadSpec sql) ∧
    ((execute_sql_mysql (Except.ok ()) fetched rowcount sql).1 =
        Except.ok (if isReadSpec sql then SqlExecResult.rows fetched
          else SqlExecResult.affected rowcount) ∧
      (execute_sql_mysql (Except.ok ()) fetched rowcount sql).2.contains
        DbEvent.commit = !isReadSpec sql) ∧
    ((execute_sql_postgres (Except.ok ()) description fetchedTuples rowcount
          sql).1 =
        Except.ok (if isReadSpec sql then SqlExecResult.rows
            (fetchedTuples.map (fun row => description.zip row))
          else SqlExecResult.affected rowcount) ∧
      (execute_sql_postgres (Except.ok ()) description fetchedTuples rowcount
          sql).2.contains DbEvent.commit = !isReadSpec sql) := by
  cases h : isReadSpec sql <;>
    simp [ execute_sql_sqlite, execute_sql_mysql, execute_sql_postgres,
      isRead_eq_spec, h] <;> decide

/-- C8: the formatting-marker stripping applied by the query generator to
model output is idempotent: applying the stripping function to an
already-stripped text returns it unchanged. -/
theorem c8_cleanSql_idempotent (s : String) : cleanSql (cleanSql s) = cleanSql s := by
  show String.mk (cleanSqlList (cleanSqlList s.data)) = String.mk (cleanSqlList s.data)
  exact congrArg String.mk (cleanSqlList_idem s.data)

/-- C10: the result of generate_sql_with_gemini does not depend on its
max_retries parameter; for any model oracle and prompt, any two values of
the parameter give the same result, because the body never reads it. -/
theorem c10_max_retries_never_read (gemini : String → Except String String)
    (prompt : String) (m1 m2 : Nat) :
    generate_sql_with_gemini gemini prompt m1
      = generate_sql_with_gemini gemini prompt m2 := rfl

/-- C6 (amended): for every relational-backend execution the connection is
closed on the successful exit path, but when the cursor execution raises,
the error propagates without the connection being closed — the source has
no finally block around the relational close calls. -/
theorem c6_close_only_on_success {ρ ν : Type} (fetched : List ρ)
    (description : List String) (fetchedTuples : List (List ν))
    (rowcount : Int) (sql e : String) :
    ((execute_sql_sqlite (Except.ok ()) fetched rowcount sql).2.contains
        DbEvent.close = true ∧
      (execute_sql_sqlite (Except.error e) fetched rowcount sql).2.contains
        DbEvent.close = false) ∧
    ((execute_sql_mysql (Except.ok ()) fetched rowcount sql).2.contains
        DbEvent.close = true ∧
      (execute_sql_mysql (Except.error e) fetched rowcount sql).2.contains
        DbEvent.close = false) ∧
    ((execute_sql_postgres (Except.ok ()) description fetchedTuples rowcount
          sql).2.contains DbEvent.close = true ∧
      (execute_sql_postgres (Except.error e) description fetchedTuples rowcount
          sql).2.contains DbEvent.close = false) := by
  cases h : isRead sql <;>
    simp [ execute_sql_sqlite, execute_sql_mysql, execute_sql_postgres, h] <;>
    decide

/-- C6 counterexample: on a concrete raising execution, none of the three
relational executors records a close action, refuting the claim that the
connection is closed on every exit path. -/
theorem c6_counterexample :
    (execute_sql_sqlite (Except.error ("no such table: users"))
        ([] : List Unit) 0 ("SELECT * FROM users")).2.contains
      DbEvent.close = false ∧
    (execute_sql_mysql (Except.error ("no such table: users"))
        ([] : List Unit) 0 ("SELECT * FROM users")).2.contains
      DbEvent.close = false ∧
    (execute_sql_postgres (Except.error ("no such table: users")) []
        ([] : List (List Unit)) 0 ("SELECT * FROM users")).2.contains
      DbEvent.close = false := by
  decide

/-- C9: for every document-store execution, if the query text after
trimming leading whitespace begins with an opening brace it is parsed as a
structured filter document and otherwise the empty filter is used; the
result is the matching documents of the named collection with each
document's unique identifier field coerced to a string (a parse failure
surfaces as the wrapped MongoDB query error). -/
theorem c9_mongo_filter_dispatch {φ ι ν : Type}
    (parseJson : String → Except String φ) (emptyFilter : φ)
    (find : φ → List (MongoDoc ι ν)) (toStr : ι → String) (q : String) :
    (execute_sql_mongo parseJson emptyFilter find toStr q).1 =
      (match (if startsBraceSpec q then parseJson q
          else Except.ok emptyFilter) with
        | Except.ok f => Except.ok ((find f).map
            (fun d => { idField := d.idField.map toStr, fields := d.fields }))
        | Except.error e => Except.error ("MongoDB query error: " ++ e)) := by
  cases hq : startsBraceSpec q <;>
    cases hp : parseJson q <;>
    simp [ execute_sql_mongo, startsBrace_eq_spec, hq, hp]

/-- C1 (amended): in a correction cycle, if execution of an attempt fails
with further attempts allowed and the correction-generation call itself
fails, the controller terminates immediately with a failure record whose
error is the string Auto-correction failed (capital A, unlike the claim's
lowercase rendering) followed by the generation error as surfaced by
generate_sql_with_gemini, whose original_error is the execution error, and
whose attempts field is the failing attempt's one-based number. -/
theorem c1_generation_failure_terminal {ρ : Type}
    (execF : Nat → String → Except String ρ)
    (gemini : String → Except String String)
    (schema_info original_question : String)
    (max_retries remaining attempt : Nat) (sql e ge : String)
    (hrem : 0 < remaining) (hatt : attempt < max_retries - 1)
    (hexec : execF attempt sql = Except.error e)
    (hgen : gemini (correction_prompt e original_question schema_info sql)
      = Except.error ge) :
    autoCorrectGo execF gemini schema_info original_question max_retries
        remaining attempt sql =
      some { success := false, results := none, final_sql := none,
             error := some ("Auto-correction failed: "
               ++ ("Gemini API error: " ++ ge)),
             original_error := some e, attempts := attempt + 1 } := by
  obtain ⟨r, rfl⟩ : ∃ r, remaining = r + 1 := ⟨remaining - 1, by omega⟩
  simp only [ autoCorrectGo, hexec]
  rw [ if_pos hatt]
  simp only [ generate_sql_with_gemini, hgen]

/-- C1 witness: the amended statement instantiated at a concrete cycle
whose first execution fails and whose correction generation fails. -/
theorem c1_generation_failure_terminal_witness :
    0 < 3 ∧ 0 < 3 - 1 ∧
    (fun (_ : Nat) (_ : String) => (Except.error ("E1") : Except String Unit))
        0 ("SELECT *") = Except.error ("E1") ∧
    (fun (_ : String) => (Except.error ("G1") : Except String String))
        (correction_prompt ("E1") ("q") ("s") ("SELECT *"))
      = Except.error ("G1") ∧
    autoCorrectGo
        (fun (_ : Nat) (_ : String) => (Except.error ("E1") : Except String Unit))
        (fun (_ : String) => (Except.error ("G1") : Except String String))
        ("s") ("q") 3 3 0 ("SELECT *") =
      some { success := false, results := none, final_sql := none,
             error := some ("Auto-correction failed: "
               ++ ("Gemini API error: " ++ "G1")),
             original_error := some ("E1"), attempts := 0 + 1 } :=
  ⟨by decide, by decide, rfl, rfl,
    c1_generation_failure_terminal _ _ ("s") ("q") 3 3 0 ("SELECT *") ("E1")
      ("G1") (by decide) (by decide) rfl rfl⟩

/-- C1 counterexample: at a concrete failing cycle the stored error string
begins with a capital letter, so it is not the claimed lowercase
auto-correction failed prefix followed by the generation error. -/
theorem c1_counterexample :
    auto_correct_and_execute
        (fun (_ : Nat) (_ : String) => (Except.error ("E1") : Except String Unit))
        (fun (_ : String) => (Except.error ("G1") : Except String String))
        ("SELECT *") ("s") ("q") 3 =
      some { success := false, results := none, final_sql := none,
             error := some ("Auto-correction failed: Gemini API error: G1"),
             original_error := some ("E1"), attempts := 1 } ∧
    ("Auto-correction failed: Gemini API error: G1" : String)
      ≠ "auto-correction failed: " ++ "Gemini API error: G1" := by
  constructor
  · rfl
  · decide

/-- C3: for every correction cycle whose first execution attempt succeeds,
the returned record has attempts equal to one and final_sql equal to the
input query text unmodified. -/
theorem c3_first_attempt_success {ρ : Type}
    (execF : Nat → String → Except String ρ)
    (gemini : String → Except String String)
    (sql schema_info original_question : String) (max_retries : Nat) (v : ρ)
    (hmr : 0 < max_retries) (hexec : execF 0 sql = Except.ok v) :
    auto_correct_and_execute execF gemini sql schema_info original_question
        max_retries =
      some { success := true, results := some v, final_sql := some sql,
             error := none, original_error := none, attempts := 1 } := by
  obtain ⟨m, rfl⟩ : ∃ m, max_retries = m + 1 := ⟨max_retries - 1, by omega⟩
  unfold auto_correct_and_execute
  simp only [ autoCorrectGo, hexec]

/-- C3 witness: the statement instantiated at a concrete cycle whose first
execution succeeds. -/
theorem c3_first_attempt_success_witness :
    0 < 3 ∧
    (fun (_ : Nat) (_ : String) => (Except.ok () : Except String Unit))
        0 ("SELECT 1") = Except.ok () ∧
    auto_correct_and_execute
        (fun (_ : Nat) (_ : String) => (Except.ok () : Except String Unit))
        (fun (_ : String) => (Except.error ("unused") : Except String String))
        ("SELECT 1") ("s") ("q") 3 =
      some { success := true, results := some (), final_sql := some ("SELECT 1"),
             error := none, original_error := none, attempts := 1 } :=
  ⟨by decide, rfl,
    c3_first_attempt_success _ _ ("SELECT 1") ("s") ("q") 3 () (by decide) rfl⟩

/-- In a cycle where every execution fails and every correction generation
succeeds, the loop runs its full budget and ends with the last execution's
error on the last chained query text. -/
theorem autoCorrectGo_all_failures {ρ : Type} (errF : Nat → String → String)
    (genOut : String → String)
    (schema_info original_question sql0 : String) (max_retries : Nat) :
    ∀ remaining attempt, remaining + attempt = max_retries → 0 < remaining →
      autoCorrectGo (fun i s => (Except.error (errF i s) : Except String ρ))
          (fun p => Except.ok (genOut p)) schema_info original_question
          max_retries remaining attempt
          (sqlChain errF genOut schema_info original_question sql0 attempt) =
        some { success := false, results := none,
               final_sql := some (sqlChain errF genOut schema_info
                 original_question sql0 (max_retries - 1)),
               error := some (errF (max_retries - 1)
                 (sqlChain errF genOut schema_info original_question sql0
                   (max_retries - 1))),
               original_error := none, attempts := max_retries } := by
  intro remaining
  induction remaining with
  | zero =>
    intro attempt h1 h2
    exact absurd h2 (by omega)
  | succ r ih =>
    intro attempt h1 h2
    by_cases hlt : attempt < max_retries - 1
    · have hr : 0 < r := by omega
      simp only [ autoCorrectGo]
      rw [ if_pos hlt]
      simp only [ generate_sql_with_gemini]
      have hstep : cleanSql (genOut (correction_prompt
          (errF attempt
            (sqlChain errF genOut schema_info original_question sql0 attempt))
          original_question schema_info
          (sqlChain errF genOut schema_info original_question sql0 attempt)))
          = sqlChain errF genOut schema_info original_question sql0
              (attempt + 1) := rfl
      rw [ hstep]
      exact ih (attempt + 1) (by omega) hr
    · have hatt : attempt = max_retries - 1 := by omega
      have hsucc : attempt + 1 = max_retries := by omega
      simp only [ autoCorrectGo]
      rw [ if_neg hlt, hsucc, hatt]

/-- C2: for every correction cycle in which execution fails on every
attempt up to the bound (so every correction generation succeeds), the
controller terminates with a failure record whose attempts field equals the
maximum attempts, whose error equals the last execution's error message,
and which carries the final query text. -/
theorem c2_exhaustion_reports_failure {ρ : Type} (errF : Nat → String → String)
    (genOut : String → String)
    (sql0 schema_info original_question : String) (max_retries : Nat)
    (hmr : 0 < max_retries) :
    auto_correct_and_execute
        (fun i s => (Except.error (errF i s) : Except String ρ))
        (fun p => Except.ok (genOut p)) sql0 schema_info original_question
        max_retries =
      some { success := false, results := none,
             final_sql := some (sqlChain errF genOut schema_info
               original_question sql0 (max_retries - 1)),
             error := some (errF (max_retries - 1)
               (sqlChain errF genOut schema_info original_question sql0
                 (max_retries - 1))),
             original_error := none, attempts := max_retries } := by
  have h := autoCorrectGo_all_failures (ρ := ρ) errF genOut schema_info
    original_question sql0 max_retries max_retries 0 (by omega) hmr
  have h0 : sqlChain errF genOut schema_info original_question sql0 0 = sql0 :=
    rfl
  rw [ h0] at h
  exact h

/-- C2 witness: the statement instantiated at a concrete three-attempt
cycle whose executions all fail with error E while generation always
returns the text SELECT 2. -/
theorem c2_exhaustion_reports_failure_witness :
    0 < 3 ∧
    auto_correct_and_execute
        (fun i s => (Except.error ((fun (_ : Nat) (_ : String) => "E") i s)
          : Except String Unit))
        (fun p => Except.ok ((fun (_ : String) => "SELECT 2") p))
        ("SELECT 1") ("s") ("q") 3 =
      some { success := false, results := none,
             final_sql := some (sqlChain (fun (_ : Nat) (_ : String) => "E")
               (fun (_ : String) => "SELECT 2") ("s") ("q") ("SELECT 1")
               (3 - 1)),
             error := some ((fun (_ : Nat) (_ : String) => "E") (3 - 1)
               (sqlChain (fun (_ : Nat) (_ : String) => "E")
                 (fun (_ : String) => "SELECT 2") ("s") ("q") ("SELECT 1")
                 (3 - 1))),
             original_error := none, attempts := 3 } :=
  ⟨by decide,
    c2_exhaustion_reports_failure (fun (_ : Nat) (_ : String) => "E")
      (fun (_ : String) => "SELECT 2") ("SELECT 1") ("s") ("q") 3 (by decide)⟩

/-- C4 (amended): for every correction cycle in which execution fails
exactly once, correction generation succeeds, and the second execution
attempt succeeds, the returned record has attempts equal to two and
final_sql equal to the cleaned generated correction text — which the
source never compares with the original query text, so it may coincide
with it. -/
theorem c4_second_attempt_success {ρ : Type}
    (execF : Nat → String → Except String ρ)
    (gemini : String → Except String String)
    (sql schema_info original_question : String) (max_retries : Nat)
    (e raw : String) (v : ρ)
    (hmr : 1 < max_retries)
    (hexec0 : execF 0 sql = Except.error e)
    (hgen : gemini (correction_prompt e original_question schema_info sql)
      = Except.ok raw)
    (hexec1 : execF 1 (cleanSql raw) = Except.ok v) :
    auto_correct_and_execute execF gemini sql schema_info original_question
        max_retries =
      some { success := true, results := some v,
             final_sql := some (cleanSql raw),
             error := none, original_error := none, attempts := 2 } := by
  obtain ⟨m, rfl⟩ : ∃ m, max_retries = m + 2 := ⟨max_retries - 2, by omega⟩
  unfold auto_correct_and_execute
  simp only [ autoCorrectGo, hexec0]
  rw [ if_pos (show 0 < m + 2 - 1 by omega)]
  simp only [ generate_sql_with_gemini, hgen]
  simp only [ autoCorrectGo, hexec1]

/-- C4 witness: the amended statement instantiated at a concrete cycle
that fails once and then succeeds on the corrected query. -/
theorem c4_second_attempt_success_witness :
    1 < 3 ∧
    (fun (i : Nat) (_ : String) =>
        if i = 0 then (Except.error ("E") : Except String Unit)
        else Except.ok ()) 0 ("SELECT 1") = Except.error ("E") ∧
    (fun (_ : String) => (Except.ok ("SELECT 2") : Except String String))
        (correction_prompt ("E") ("q") ("s") ("SELECT 1"))
      = Except.ok ("SELECT 2") ∧
    (fun (i : Nat) (_ : String) =>
        if i = 0 then (Except.error ("E") : Except String Unit)
        else Except.ok ()) 1 (cleanSql ("SELECT 2")) = Except.ok () ∧
    auto_correct_and_execute
        (fun (i : Nat) (_ : String) =>
          if i = 0 then (Except.error ("E") : Except String Unit)
          else Except.ok ())
        (fun (_ : String) => (Except.ok ("SELECT 2") : Except String String))
        ("SELECT 1") ("s") ("q") 3 =
      some { success := true, results := some (),
             final_sql := some (cleanSql ("SELECT 2")),
             error := none, original_error := none, attempts := 2 } :=
  ⟨by decide, rfl, rfl, rfl,
    c4_second_attempt_success _ _ ("SELECT 1") ("s") ("q") 3 ("E")
      ("SELECT 2") () (by decide) rfl rfl rfl⟩

/-- C4 counterexample: when the model returns the same query text that
failed and the second execution then succeeds, attempts is two but
final_sql equals the original input query text, refuting the claim that it
always differs. -/
theorem c4_counterexample :
    (auto_correct_and_execute
        (fun (i : Nat) (_ : String) =>
          if i = 0 then (Except.error ("E") : Except String Unit)
          else Except.ok ())
        (fun (_ : String) => (Except.ok ("SELECT 1") : Except String String))
        ("SELECT 1") ("s") ("q") 3).map
      (fun r => (r.attempts, r.final_sql)) = some (2, some ("SELECT 1")) := by
  decide

/-- C5 (amended): every execution-failure response of the execute_query
endpoint is the 500 body carrying the controller record's error text (the
most recent error) and its attempts count — and nothing else; in
particular the original_error field a generation failure stores is not
part of the endpoint response. -/
theorem c5_failure_response_fields {ρ π : Type}
    (execF : Nat → String → Except String ρ)
    (gemini : String → Except String String) (dbType : String) (p : π)
    (sqlText : String) (schemaField questionField : Option String)
    (record : AttemptRecord ρ)
    (hdb : dbType ≠ "") (hsql : sqlText ≠ "")
    (hrun : auto_correct_and_execute execF gemini sqlText
        (schemaField.getD "") (questionField.getD "") 3 = some record)
    (hfail : record.success = false) :
    execute_query execF gemini (some dbType) (some p) (some sqlText)
        schemaField questionField =
      ExecuteQueryResponse.failBody record.error record.attempts 500 := by
  have hemp : ∀ s : String, s ≠ "" → s.isEmpty = false := by
    intro s hs
    rcases hx : s.isEmpty with _ | _
    · rfl
    · exact absurd ((String.isEmpty_iff s).mp hx) hs
  have ht1 : truthy (some dbType) = true := by
    unfold truthy
    simp [ hemp dbType hdb]
  have ht2 : truthy (some sqlText) = true := by
    unfold truthy
    simp [ hemp sqlText hsql]
  unfold execute_query
  rw [ ht1, ht2]
  simp only [ Option.isSome_some, Bool.and_true, Bool.and_self,
    Bool.not_true, Bool.false_eq_true, if_false]
  have hs : (some sqlText).getD "" = sqlText := rfl
  rw [ hs, hrun]
  simp [ hfail]

/-- C5 witness: the amended statement instantiated at a concrete request
whose execution fails and whose correction generation fails. -/
theorem c5_failure_response_fields_witness :
    ("sqlite" : String) ≠ "" ∧ ("SELECT *" : String) ≠ "" ∧
    auto_correct_and_execute
        (fun (_ : Nat) (_ : String) => (Except.error ("E1") : Except String Unit))
        (fun (_ : String) => (Except.error ("G1") : Except String String))
        ("SELECT *") ((none : Option String).getD "")
        ((none : Option String).getD "") 3 =
      some { success := false, results := none, final_sql := none,
             error := some ("Auto-correction failed: Gemini API error: G1"),
             original_error := some ("E1"), attempts := 1 } ∧
    execute_query
        (fun (_ : Nat) (_ : String) => (Except.error ("E1") : Except String Unit))
        (fun (_ : String) => (Except.error ("G1") : Except String String))
        (some ("sqlite")) (some ()) (some ("SELECT *")) none none =
      ExecuteQueryResponse.failBody
        (some ("Auto-correction failed: Gemini API error: G1")) 1 500 :=
  ⟨by decide, by decide, rfl,
    c5_failure_response_fields _ _ ("sqlite") () ("SELECT *") none none
      { success := false, results := none, final_sql := none,
        error := some ("Auto-correction failed: Gemini API error: G1"),
        original_error := some ("E1"), attempts := 1 }
      (by decide) (by decide) rfl rfl⟩

/-- C5 counterexample: on a generation failure during correction the 500
body carries only the combined correction error and the attempt count; the
original execution error E1 appears nowhere in the response's error text,
refuting the claim that both errors are present together in the
response. -/
theorem c5_counterexample :
    execute_query
        (fun (_ : Nat) (_ : String) => (Except.error ("E1") : Except String Unit))
        (fun (_ : String) => (Except.error ("G1") : Except String String))
        (some ("sqlite")) (some ()) (some ("SELECT *")) none none =
      ExecuteQueryResponse.failBody
        (some ("Auto-correction failed: Gemini API error: G1")) 1 500 ∧
    ¬ (("E1" : String).data <:+:
        ("Auto-correction failed: Gemini API error: G1" : String).data) := by
  constructor
  · rfl
  · decide

end DataTalk
